import Mathlib

/-!
Shallow embedding of the ContentAgent media-processing pipeline
(`apps/content/services.py`, `apps/content/tasks.py`, `apps/content/views.py`).

Python strings are modelled as Lean `String`; Python `None` as `Option.none`;
`datetime` values as abstract `Nat` timestamps supplied by the caller (the code
only ever stores `timezone.now()`, never inspects it); Python exceptions as
`Except`.  External collaborators (the APIHUT download API, yt-dlp, the Gemini
model, ffmpeg, the filesystem) are modelled as explicit "world" records whose
fields stand for the outcomes of the external calls; the task bodies are pure
functions of the world.
-/

namespace ContentAgent

/-! ## Python string primitives -/

/-- Checks that `needle` is a prefix of `hay` (character-wise). -/
def prefAt : List Char → List Char → Bool
  | [], _ => true
  | _ :: _, [] => false
  | a :: as, b :: bs => a == b && prefAt as bs

/-- Python's `needle in hay` substring test, on character lists. -/
def hasSub (needle : List Char) : List Char → Bool
  | [] => prefAt needle []
  | b :: bs => prefAt needle (b :: bs) || hasSub needle bs

/-- Python's `needle in hay` on strings. -/
def strContains (hay needle : String) : Bool :=
  hasSub needle.data hay.data

/-- Python's `str.lower()` (the URLs' relevant characters are ASCII). -/
def pyLower (s : String) : String :=
  String.mk (s.data.map Char.toLower)

/-- Drops characters satisfying `p` from both ends of a character list. -/
def trimEnds (p : Char → Bool) (cs : List Char) : List Char :=
  ((cs.dropWhile p).reverse.dropWhile p).reverse

/-- Python's `str.strip()` (strip whitespace from both ends). -/
def pyStrip (s : String) : String :=
  String.mk (trimEnds Char.isWhitespace s.data)

/-- Python's `str.strip(chars)`: strip any character of `chars` from both ends. -/
def pyStripChars (s : String) (chars : String) : String :=
  String.mk (trimEnds (fun c => chars.data.contains c) s.data)

/-- Python's `str.startswith(p)`. -/
def pyStartsWith (s p : String) : Bool :=
  prefAt p.data s.data

/-- Python's `str.split('\n')` on a character list. -/
def splitLines : List Char → List (List Char)
  | [] => [[]]
  | c :: cs =>
    let r := splitLines cs
    if c == '\n' then [] :: r
    else
      match r with
      | [] => [[c]]
      | l :: ls => (c :: l) :: ls

/-- Python's `'\n'.join(lines)` on character lists. -/
def joinLines : List (List Char) → List Char
  | [] => []
  | [l] => l
  | l :: ls => l ++ '\n' :: joinLines ls

/-- Python truthiness of an optional string: `None` and `""` are falsy. -/
def optStrFalsy : Option String → Bool
  | none => true
  | some s => s == ""

/-! ## Platform classifier (`services.detect_content_info`, `tasks.detect_platform`) -/

/-- `services.detect_content_info`: returns `(content_type, platform)` by
case-insensitive substring match, checking instagram, then youtube, then
linkedin, defaulting to `(text, other)`. -/
def detect_content_info (url : String) : String × String :=
  let u := pyLower url
  if strContains u "instagram.com" || strContains u "instagr.am" then
    ("video", "instagram")
  else if strContains u "youtube.com" || strContains u "youtu.be" then
    ("video", "youtube")
  else if strContains u "linkedin.com" then
    ("video", "linkedin")
  else
    ("text", "other")

/-- `tasks.detect_platform`: the platform component of the same classification. -/
def detect_platform (url : String) : String :=
  let u := pyLower url
  if strContains u "instagram.com" || strContains u "instagr.am" then
    "instagram"
  else if strContains u "youtube.com" || strContains u "youtu.be" then
    "youtube"
  else if strContains u "linkedin.com" then
    "linkedin"
  else
    "other"

/-- Claim C1 as stated is false: the classifier tests the instagram domains
first, so a URL containing both `instagram.com` and `youtube.com` is classified
`(video, instagram)`, not `(video, youtube)` as the claim requires for every
URL containing `youtube.com`. -/
theorem C1_counterexample :
    strContains (pyLower "https://instagram.com/reel?from=youtube.com") "youtube.com" = true ∧
    detect_content_info "https://instagram.com/reel?from=youtube.com" ≠ ("video", "youtube") ∧
    detect_content_info "https://instagram.com/reel?from=youtube.com" = ("video", "instagram") := by
  refine ⟨by decide, by decide, by decide⟩

/-- Claim C1, amended: the classifier is total and matches domains
case-insensitively, but with instagram taking precedence over youtube, and
youtube over linkedin: a URL containing an instagram domain is `(video,
instagram)` regardless of other domains; youtube applies only when no instagram
domain is present; linkedin only when neither is; otherwise `(text, other)`.
`detect_platform` agrees with the platform component of `detect_content_info`. -/
theorem C1_classifier_characterization (url : String) :
    ((strContains (pyLower url) "instagram.com" || strContains (pyLower url) "instagr.am") = true →
      detect_content_info url = ("video", "instagram")) ∧
    ((strContains (pyLower url) "instagram.com" || strContains (pyLower url) "instagr.am") = false →
      (strContains (pyLower url) "youtube.com" || strContains (pyLower url) "youtu.be") = true →
      detect_content_info url = ("video", "youtube")) ∧
    ((strContains (pyLower url) "instagram.com" || strContains (pyLower url) "instagr.am") = false →
      (strContains (pyLower url) "youtube.com" || strContains (pyLower url) "youtu.be") = false →
      strContains (pyLower url) "linkedin.com" = true →
      detect_content_info url = ("video", "linkedin")) ∧
    ((strContains (pyLower url) "instagram.com" || strContains (pyLower url) "instagr.am") = false →
      (strContains (pyLower url) "youtube.com" || strContains (pyLower url) "youtu.be") = false →
      strContains (pyLower url) "linkedin.com" = false →
      detect_content_info url = ("text", "other")) ∧
    detect_platform url = (detect_content_info url).2 := by
  unfold detect_content_info detect_platform
  refine ⟨fun h1 => ?_, fun h1 h2 => ?_, fun h1 h2 h3 => ?_, fun h1 h2 h3 => ?_, ?_⟩
  · simp [h1]
  · simp [h1, h2]
  · simp [h1, h2, h3]
  · simp [h1, h2, h3]
  · cases h1 : (strContains (pyLower url) "instagram.com" || strContains (pyLower url) "instagr.am") <;>
      cases h2 : (strContains (pyLower url) "youtube.com" || strContains (pyLower url) "youtu.be") <;>
        cases h3 : strContains (pyLower url) "linkedin.com" <;> simp [h1, h2, h3]

/-- Witness for `C1_classifier_characterization` at a concrete YouTube URL. -/
theorem C1_classifier_characterization_witness :
    detect_content_info "https://youtu.be/abc" = ("video", "youtube") :=
  (C1_classifier_characterization "https://youtu.be/abc").2.1 (by decide) (by decide)

/-! ## Data model (`apps/content/models.py`) -/

/-- `models.Content`: `file_path` is the nullable pointer to the latest derived
media artifact (the spec's `current_file`). -/
structure Content where
  id : String
  source_url : String
  content_type : String
  platform : String
  file_path : Option String
deriving Repr, DecidableEq

/-- `models.VideoDownloadTask`: timestamps are abstract `Nat` instants. -/
structure DownloadTask where
  status : String
  progress : Nat
  error_message : Option String
  download_url : Option String
  file_size : Option Nat
  started_at : Option Nat
  completed_at : Option Nat
deriving Repr, DecidableEq

/-- `models.Subtitle`: `id` is an abstract row identity (the UUID primary key). -/
structure SubtitleRec where
  id : Nat
  language : String
  status : String
  subtitle_text : Option String
  error_message : Option String
  started_at : Option Nat
  completed_at : Option Nat
deriving Repr, DecidableEq

/-- Python exceptions raised by the service layer. -/
inductive PyErr where
  | valueError (msg : String)
  | externalError (msg : String)
deriving Repr, DecidableEq

/-- A `VideoDownloadTask` as freshly created by `create_video_download_task`
(model defaults: `status='pending'`, `progress=0`, everything else null). -/
def freshDownloadTask : DownloadTask :=
  { status := "pending", progress := 0, error_message := none, download_url := none,
    file_size := none, started_at := none, completed_at := none }

/-- A `Subtitle` as freshly created with `status='pending'`. -/
def freshSubtitle (id : Nat) (language : String) : SubtitleRec :=
  { id := id, language := language, status := "pending", subtitle_text := none,
    error_message := none, started_at := none, completed_at := none }

/-! ## Download task creation (`services.create_video_download_task`,
`services.create_content_from_search_result`) -/

/-- `services.create_video_download_task`: unconditionally creates and persists
a pending `VideoDownloadTask` for the content — the body performs no check of
`content_type` and no check for an existing task; it never raises. -/
def create_video_download_task (content : Content) : Except PyErr DownloadTask :=
  Except.ok freshDownloadTask

/-- `services.create_content_from_search_result`: refuses when the project
already has content, otherwise creates a `Content` classified from the search
result's link and auto-creates a download task exactly when the detected
content type is `video`.  `projectHasContent` models `hasattr(project,
'content')`; `cid` the generated UUID. -/
def create_content_from_search_result (projectHasContent : Bool) (cid link : String) :
    Except PyErr (Content × Option DownloadTask) :=
  if projectHasContent then
    Except.error (PyErr.valueError "Content already exists for this project")
  else
    let info := detect_content_info link
    let content : Content :=
      { id := cid, source_url := link, content_type := info.1, platform := info.2,
        file_path := none }
    if info.1 == "video" then
      match create_video_download_task content with
      | Except.ok t => Except.ok (content, some t)
      | Except.error e => Except.error e
    else
      Except.ok (content, none)

/-- Claim C2 as stated is false: `create_video_download_task` applied to a
ContentItem whose kind is not video does not fail with a precondition error —
it succeeds and persists a pending Download Task Record (the function body
contains no precondition check at all). -/
theorem C2_counterexample :
    ({ id := "c0", source_url := "https://example.com/article", content_type := "text",
       platform := "other", file_path := none : Content }).content_type ≠ "video" ∧
    create_video_download_task
      { id := "c0", source_url := "https://example.com/article", content_type := "text",
        platform := "other", file_path := none } = Except.ok freshDownloadTask ∧
    freshDownloadTask.status = "pending" := by
  refine ⟨by decide, rfl, rfl⟩

/-- Claim C2, amended: `create_video_download_task` itself enforces no
precondition — for every content it succeeds and persists a pending task, and
it performs no check for an existing (non-failed or otherwise) Download Task.
The video-only restriction lives in its sole caller,
`create_content_from_search_result`, which creates a Download Task exactly when
the classified content type is `video` (and refuses when the project already
has content). -/
theorem C2_download_creation_guard (hasContent : Bool) (cid link : String) :
    (∀ c : Content, create_video_download_task c = Except.ok freshDownloadTask) ∧
    freshDownloadTask.status = "pending" ∧
    (hasContent = true →
      create_content_from_search_result hasContent cid link =
        Except.error (PyErr.valueError "Content already exists for this project")) ∧
    (hasContent = false → (detect_content_info link).1 = "video" →
      create_content_from_search_result hasContent cid link =
        Except.ok ({ id := cid, source_url := link, content_type := (detect_content_info link).1,
                     platform := (detect_content_info link).2, file_path := none },
                   some freshDownloadTask)) ∧
    (hasContent = false → (detect_content_info link).1 ≠ "video" →
      create_content_from_search_result hasContent cid link =
        Except.ok ({ id := cid, source_url := link, content_type := (detect_content_info link).1,
                     platform := (detect_content_info link).2, file_path := none },
                   none)) := by
  refine ⟨fun c => rfl, rfl, fun h => ?_, fun h hv => ?_, fun h hv => ?_⟩
  · simp [create_content_from_search_result, h]
  · simp [create_content_from_search_result, h, create_video_download_task, hv]
  · simp [create_content_from_search_result, h, create_video_download_task, hv]

/-- Witness for `C2_download_creation_guard` at a concrete YouTube link. -/
theorem C2_download_creation_guard_witness :
    create_content_from_search_result false "c1" "https://youtube.com/watch?v=x" =
      Except.ok ({ id := "c1", source_url := "https://youtube.com/watch?v=x",
                   content_type := "video", platform := "youtube", file_path := none },
                 some freshDownloadTask) := by
  have h := (C2_download_creation_guard false "c1" "https://youtube.com/watch?v=x").2.2.2.1
    rfl (by decide)
  simpa using h

/-! ## Status updaters (`services.update_download_task_status`,
`services.update_subtitle_status`) -/

/-- `services.update_download_task_status`: sets the status, overwrites each
field whose argument is non-null, stamps `started_at` on the first
`downloading` update, and on a terminal status stamps `completed_at` and forces
`progress = 100` for `completed` (a `failed` update keeps the progress). -/
def update_download_task_status (task : DownloadTask) (status : String)
    (progress : Option Nat) (error_message download_url : Option String)
    (file_size : Option Nat) (now : Nat) : DownloadTask :=
  let p1 := match progress with
            | some p => p
            | none => task.progress
  { task with
    status := status
    progress := if status == "completed" then 100 else p1
    error_message := match error_message with
                     | some m => some m
                     | none => task.error_message
    download_url := match download_url with
                    | some u => some u
                    | none => task.download_url
    file_size := match file_size with
                 | some n => some n
                 | none => task.file_size
    started_at := if status == "downloading" && task.started_at.isNone then some now
                  else task.started_at
    completed_at := if status == "completed" || status == "failed" then some now
                    else task.completed_at }

/-- `services.update_subtitle_status`: same shape for subtitles; `started_at`
is stamped on the first `generating` update, `completed_at` on a terminal one. -/
def update_subtitle_status (s : SubtitleRec) (status : String)
    (subtitle_text error_message : Option String) (now : Nat) : SubtitleRec :=
  { s with
    status := status
    subtitle_text := match subtitle_text with
                     | some v => some v
                     | none => s.subtitle_text
    error_message := match error_message with
                     | some m => some m
                     | none => s.error_message
    started_at := if status == "generating" && s.started_at.isNone then some now
                  else s.started_at
    completed_at := if status == "completed" || status == "failed" then some now
                    else s.completed_at }

/-- One call to `update_download_task_status`, as data. -/
structure DlArgs where
  status : String
  progress : Option Nat
  error_message : Option String
  download_url : Option String
  file_size : Option Nat
  now : Nat
deriving Repr, DecidableEq

/-- One call to `update_subtitle_status`, as data. -/
structure SubArgs where
  status : String
  subtitle_text : Option String
  error_message : Option String
  now : Nat
deriving Repr, DecidableEq

/-- Folds a sequence of `update_download_task_status` calls over a task. -/
def applyDlUpdates (t : DownloadTask) : List DlArgs → DownloadTask
  | [] => t
  | a :: rest =>
    applyDlUpdates
      (update_download_task_status t a.status a.progress a.error_message a.download_url
        a.file_size a.now) rest

/-- Folds a sequence of `update_subtitle_status` calls over a subtitle. -/
def applySubUpdates (s : SubtitleRec) : List SubArgs → SubtitleRec
  | [] => s
  | a :: rest =>
    applySubUpdates (update_subtitle_status s a.status a.subtitle_text a.error_message a.now) rest

/-- The result of any single subtitle update satisfies: terminal status implies
`completed_at` set. -/
lemma update_subtitle_terminal_stamped (s : SubtitleRec) (status : String)
    (txt em : Option String) (now : Nat) :
    (update_subtitle_status s status txt em now).status = "completed" ∨
      (update_subtitle_status s status txt em now).status = "failed" →
    (update_subtitle_status s status txt em now).completed_at ≠ none := by
  unfold update_subtitle_status
  by_cases h : (status == "completed" || status == "failed") = true
  · simp [h]
  · have hb : (status == "completed" || status == "failed") = false := by
      cases hx : (status == "completed" || status == "failed")
      · rfl
      · exact absurd hx h
    simp only [hb, if_false]
    intro hst
    rcases hst with hst | hst <;> rw [hst] at hb <;> simp at hb

/-- The result of any single download update satisfies: terminal status implies
`completed_at` set. -/
lemma update_download_terminal_stamped (t : DownloadTask) (status : String)
    (progress : Option Nat) (em du : Option String) (fs : Option Nat) (now : Nat) :
    (update_download_task_status t status progress em du fs now).status = "completed" ∨
      (update_download_task_status t status progress em du fs now).status = "failed" →
    (update_download_task_status t status progress em du fs now).completed_at ≠ none := by
  unfold update_download_task_status
  by_cases h : (status == "completed" || status == "failed") = true
  · simp [h]
  · have hb : (status == "completed" || status == "failed") = false := by
      cases hx : (status == "completed" || status == "failed")
      · rfl
      · exact absurd hx h
    simp only [hb, if_false]
    intro hst
    rcases hst with hst | hst <;> rw [hst] at hb <;> simp at hb

/-- A fold of subtitle updates preserves the one-directional invariant. -/
lemma applySubUpdates_terminal_stamped (us : List SubArgs) (s : SubtitleRec)
    (hs : s.status = "completed" ∨ s.status = "failed" → s.completed_at ≠ none) :
    (applySubUpdates s us).status = "completed" ∨ (applySubUpdates s us).status = "failed" →
    (applySubUpdates s us).completed_at ≠ none := by
  induction us generalizing s with
  | nil => simpa [applySubUpdates] using hs
  | cons a rest ih =>
    simpa [applySubUpdates] using
      ih (update_subtitle_status s a.status a.subtitle_text a.error_message a.now)
        (update_subtitle_terminal_stamped s a.status a.subtitle_text a.error_message a.now)

/-- A fold of download updates preserves the one-directional invariant. -/
lemma applyDlUpdates_terminal_stamped (us : List DlArgs) (t : DownloadTask)
    (ht : t.status = "completed" ∨ t.status = "failed" → t.completed_at ≠ none) :
    (applyDlUpdates t us).status = "completed" ∨ (applyDlUpdates t us).status = "failed" →
    (applyDlUpdates t us).completed_at ≠ none := by
  induction us generalizing t with
  | nil => simpa [applyDlUpdates] using ht
  | cons a rest ih =>
    simpa [applyDlUpdates] using
      ih (update_download_task_status t a.status a.progress a.error_message a.download_url
            a.file_size a.now)
        (update_download_terminal_stamped t a.status a.progress a.error_message a.download_url
          a.file_size a.now)

/-- Claim C4 as stated is false: a retried execution updates a previously
failed record back to `generating` (exactly what `generate_subtitle_task` does
on a Celery retry, and what the failed-translation reuse path of
`translate_subtitle_synchronous` does directly), and neither path clears
`completed_at` — leaving a record with `status = generating` and `completed_at`
still set, so `completed_at` is set while the status is not in
{completed, failed}. -/
theorem C4_counterexample :
    (applySubUpdates (freshSubtitle 1 "original")
        [{ status := "failed", subtitle_text := none, error_message := some "boom", now := 1 },
         { status := "generating", subtitle_text := none, error_message := none, now := 2 }]).status
      = "generating" ∧
    (applySubUpdates (freshSubtitle 1 "original")
        [{ status := "failed", subtitle_text := none, error_message := some "boom", now := 1 },
         { status := "generating", subtitle_text := none, error_message := none, now := 2 }]).completed_at
      = some 1 ∧
    ¬ ((applySubUpdates (freshSubtitle 1 "original")
          [{ status := "failed", subtitle_text := none, error_message := some "boom", now := 1 },
           { status := "generating", subtitle_text := none, error_message := none, now := 2 }]).completed_at
          ≠ none ↔
        ((applySubUpdates (freshSubtitle 1 "original")
            [{ status := "failed", subtitle_text := none, error_message := some "boom", now := 1 },
             { status := "generating", subtitle_text := none, error_message := none, now := 2 }]).status
            = "completed" ∨
         (applySubUpdates (freshSubtitle 1 "original")
            [{ status := "failed", subtitle_text := none, error_message := some "boom", now := 1 },
             { status := "generating", subtitle_text := none, error_message := none, now := 2 }]).status
            = "failed")) := by
  refine ⟨by decide, by decide, by decide⟩

/-- Claim C4, amended: only one direction of the invariant holds.  After any
sequence of status-update operations starting from a fresh record, if the
status is `completed` or `failed` then `completed_at` is set (both updaters
stamp it on every terminal update).  The converse fails: no update path ever
clears `completed_at`, so after a failure is retried (status reset to
`generating`/`downloading`) the stale `completed_at` remains set on a
non-terminal record. -/
theorem C4_completed_at_invariant (us : List SubArgs) (ds : List DlArgs)
    (i : Nat) (lang : String) :
    ((applySubUpdates (freshSubtitle i lang) us).status = "completed" ∨
      (applySubUpdates (freshSubtitle i lang) us).status = "failed" →
      (applySubUpdates (freshSubtitle i lang) us).completed_at ≠ none) ∧
    ((applyDlUpdates freshDownloadTask ds).status = "completed" ∨
      (applyDlUpdates freshDownloadTask ds).status = "failed" →
      (applyDlUpdates freshDownloadTask ds).completed_at ≠ none) := by
  constructor
  · exact applySubUpdates_terminal_stamped us (freshSubtitle i lang)
      (by intro h; rcases h with h | h <;> simp [freshSubtitle] at h)
  · exact applyDlUpdates_terminal_stamped ds freshDownloadTask
      (by intro h; rcases h with h | h <;> simp [freshDownloadTask] at h)

/-- Witness for `C4_completed_at_invariant` on concrete update sequences. -/
theorem C4_completed_at_invariant_witness :
    (applySubUpdates (freshSubtitle 3 "original")
      [{ status := "generating", subtitle_text := none, error_message := none, now := 1 },
       { status := "completed", subtitle_text := some "1\nhi", error_message := none, now := 2 }]).completed_at
      ≠ none :=
  (C4_completed_at_invariant
    [{ status := "generating", subtitle_text := none, error_message := none, now := 1 },
     { status := "completed", subtitle_text := some "1\nhi", error_message := none, now := 2 }]
    [] 3 "original").1 (by decide)

/-! ## Download executor (`tasks.download_video_task`) -/

/-- Outcomes of the external download collaborators for one execution:
`resolveOk` — the yt-dlp / APIHUT resolution call returns without raising;
`instaData` — the instagram response's `data[0]` (`none` when `data` is empty),
holding its optional `url`; `directUrl` — `download_info.get('url')` for
youtube/linkedin; `fetchOk`/`fetchedSize` — the byte-streaming download. -/
structure DlWorld where
  resolveOk : Bool
  instaData : Option (Option String)
  directUrl : Option String
  fetchOk : Bool
  fetchedSize : Nat
deriving Repr, DecidableEq

/-- One persisted effect of the download executor: a
`update_download_task_status` call, or the `update_content_file_path` call. -/
inductive DlEv where
  | taskUpdate (status : String) (progress : Option Nat) (error_message : Option String)
      (download_url : Option String) (file_size : Option Nat)
  | contentFile (path : String)
deriving Repr, DecidableEq

/-- The failure handler's update: `status='failed'` with the exception text
(progress is not passed, so it is retained). -/
def dlFailEv (msg : String) : DlEv :=
  DlEv.taskUpdate "failed" none (some msg) none none

/-- Lines 223-226 of `tasks.py`: a content whose stored platform is `other` is
re-classified from its URL at execution time. -/
def effectivePlatform (c : Content) : String :=
  if c.platform == "other" then detect_platform c.source_url else c.platform

/-- Extraction of the remote download URL from the resolver response
(lines 245-257): instagram reads `data[0].url` (raising when `data` is empty),
youtube/linkedin read `url`; a missing or empty URL raises. -/
def extract_download_url (platform : String) (w : DlWorld) : Except String String :=
  if platform == "instagram" then
    match w.instaData with
    | none => Except.error "No video data returned from APIHUT"
    | some u =>
      match u with
      | none => Except.error "No download URL found in response"
      | some s => if s == "" then Except.error "No download URL found in response" else Except.ok s
  else
    match w.directUrl with
    | none => Except.error "No download URL found in response"
    | some s => if s == "" then Except.error "No download URL found in response" else Except.ok s

/-- `tasks.download_video_task` body as its sequence of persisted effects.
Checkpoints as in the source: `downloading/10` on acceptance, resolution,
`processing/30`, URL extraction, `downloading/50` with the URL, byte fetch,
`update_content_file_path('videos/{id}.mp4')`, then `completed/100` with the
file size; any exception is caught and recorded via a single `failed` update. -/
def download_video_task_run (c : Content) (w : DlWorld) : List DlEv :=
  let ev1 := DlEv.taskUpdate "downloading" (some 10) none none none
  let platform := effectivePlatform c
  if !(platform == "linkedin" || platform == "instagram" || platform == "youtube") then
    [ev1, dlFailEv ("Unsupported platform: " ++ platform)]
  else if !w.resolveOk then
    [ev1, dlFailEv "download resolution failed"]
  else
    let ev2 := DlEv.taskUpdate "processing" (some 30) none none none
    match extract_download_url platform w with
    | Except.error msg => [ev1, ev2, dlFailEv msg]
    | Except.ok durl =>
      let ev3 := DlEv.taskUpdate "downloading" (some 50) none (some durl) none
      if !w.fetchOk then
        [ev1, ev2, ev3, dlFailEv "download fetch failed"]
      else
        [ev1, ev2, ev3,
         DlEv.contentFile ("videos/" ++ c.id ++ ".mp4"),
         DlEv.taskUpdate "completed" (some 100) none none (some w.fetchedSize)]

/-- Applies one executor effect to the task record (content updates leave the
task unchanged). -/
def applyDlEv (t : DownloadTask) (e : DlEv) (now : Nat) : DownloadTask :=
  match e with
  | DlEv.taskUpdate status progress em du fs =>
    update_download_task_status t status progress em du fs now
  | DlEv.contentFile _ => t

/-- The task-record states after each effect of a run, in order. -/
def dlTaskStates (t : DownloadTask) : List DlEv → Nat → List DownloadTask
  | [], _ => []
  | e :: rest, now =>
    let t2 := applyDlEv t e now
    t2 :: dlTaskStates t2 rest (now + 1)

/-- The status values the record passes through during one run, starting from
the `pending` it is created with. -/
def statusTrace (c : Content) (w : DlWorld) : List String :=
  "pending" :: (download_video_task_run c w).filterMap fun e =>
    match e with
    | DlEv.taskUpdate s _ _ _ _ => some s
    | DlEv.contentFile _ => none

/-- The ordering of the claimed state machine
`pending → downloading → processing → completed`. -/
def statusRank (s : String) : Nat :=
  if s == "pending" then 0
  else if s == "downloading" then 1
  else if s == "processing" then 2
  else if s == "completed" then 3
  else 4

/-- Holds when the ranks never decrease along the list. -/
def ranksMonotone : List String → Bool
  | [] => true
  | [_] => true
  | a :: b :: rest => Nat.ble (statusRank a) (statusRank b) && ranksMonotone (b :: rest)

/-- Holds when the naturals never decrease along the list. -/
def natMonotone : List Nat → Bool
  | [] => true
  | [_] => true
  | a :: b :: rest => Nat.ble a b && natMonotone (b :: rest)

/-- A concrete video content and download worlds used by the counterexamples. -/
def ytContent : Content :=
  { id := "c-yt", source_url := "https://youtube.com/watch?v=x", content_type := "video",
    platform := "youtube", file_path := none }

/-- A world in which every external download call succeeds. -/
def dlWorldOk : DlWorld :=
  { resolveOk := true, instaData := none, directUrl := some "https://cdn.example/v.mp4",
    fetchOk := true, fetchedSize := 1024 }

/-- A world in which the byte fetch fails after the URL was resolved. -/
def dlWorldFetchFail : DlWorld :=
  { resolveOk := true, instaData := none, directUrl := some "https://cdn.example/v.mp4",
    fetchOk := false, fetchedSize := 0 }

/-- A world in which the resolution call itself fails. -/
def dlWorldResolveFail : DlWorld :=
  { resolveOk := false, instaData := none, directUrl := none, fetchOk := false, fetchedSize := 0 }

/-- Claim C3 as stated is false: a fully successful execution updates the
record `downloading(10) → processing(30) → downloading(50) → completed(100)`,
so the status moves from `processing` back to the earlier state `downloading`
at the 50% checkpoint before reaching `completed`. -/
theorem C3_counterexample :
    statusTrace ytContent dlWorldOk =
      ["pending", "downloading", "processing", "downloading", "completed"] ∧
    ranksMonotone (statusTrace ytContent dlWorldOk) = false := by
  refine ⟨by decide, by decide⟩

/-- Claim C3, amended: every successful execution of the download executor
passes through exactly `pending → downloading → processing → downloading →
completed`: it starts pending, ends completed, and visits `downloading` a
second time (at the 50% checkpoint) after `processing`, which is the one
regression in an otherwise forward-moving order. -/
theorem C3_success_trace (c : Content) (w : DlWorld) (u : String)
    (hp : (effectivePlatform c == "linkedin" || effectivePlatform c == "instagram" ||
           effectivePlatform c == "youtube") = true)
    (hr : w.resolveOk = true)
    (hu : extract_download_url (effectivePlatform c) w = Except.ok u)
    (hf : w.fetchOk = true) :
    statusTrace c w = ["pending", "downloading", "processing", "downloading", "completed"] := by
  simp [statusTrace, download_video_task_run, hp, hr, hu, hf]

/-- Witness for `C3_success_trace` on the concrete successful run. -/
theorem C3_success_trace_witness :
    statusTrace ytContent dlWorldOk =
      ["pending", "downloading", "processing", "downloading", "completed"] :=
  C3_success_trace ytContent dlWorldOk "https://cdn.example/v.mp4"
    (by decide) (by decide) (by rfl) (by decide)

/-- The progress values the record passes through during one run, starting
from the fresh record. -/
def progressTrace (c : Content) (w : DlWorld) : List Nat :=
  (dlTaskStates freshDownloadTask (download_video_task_run c w) 0).map DownloadTask.progress

/-- Task-record states of a first attempt that fails at the byte fetch. -/
def c7FirstRunStates : List DownloadTask :=
  dlTaskStates freshDownloadTask (download_video_task_run ytContent dlWorldFetchFail) 0

/-- The failed record left by that first attempt. -/
def c7FailedTask : DownloadTask :=
  c7FirstRunStates.getLastD freshDownloadTask

/-- Task-record states of the automatic retry, which fails at resolution. -/
def c7RetryStates : List DownloadTask :=
  dlTaskStates c7FailedTask (download_video_task_run ytContent dlWorldResolveFail) 10

/-- The progress values across the two attempts, in order. -/
def c7ProgressSeq : List Nat :=
  (c7FirstRunStates ++ c7RetryStates).map DownloadTask.progress

/-- Claim C7 as stated is false: an attempt that fails at the byte fetch
leaves the record failed at progress 50, but the automatic retry re-runs the
body from the start and its first update resets progress to 10 — so across the
retried sequence progress decreases (50 → 10), and after the retry also fails
the record is failed with progress 10, lower than the 50 it held before the
first failure. -/
theorem C7_counterexample :
    c7FailedTask.status = "failed" ∧
    c7FailedTask.progress = 50 ∧
    c7ProgressSeq = [10, 30, 50, 50, 10, 10] ∧
    natMonotone c7ProgressSeq = false ∧
    (c7RetryStates.getLastD freshDownloadTask).status = "failed" ∧
    (c7RetryStates.getLastD freshDownloadTask).progress = 10 := by
  refine ⟨by decide, by decide, by decide, by decide, by decide, by decide⟩

/-- Claim C7, amended: a completed update always leaves `progress = 100`, and
within any single execution of the download body the progress values are
non-decreasing (checkpoints 10, 30, 50, 100, with a failure update retaining
the current progress); however progress is not monotone across automatic
retries, since a retry restarts the body and resets progress to 10. -/
theorem C7_progress_properties (t : DownloadTask) (status : String)
    (progress : Option Nat) (em du : Option String) (fs : Option Nat) (now : Nat)
    (c : Content) (w : DlWorld) (h : status = "completed") :
    (update_download_task_status t status progress em du fs now).progress = 100 ∧
    natMonotone (progressTrace c w) = true := by
  constructor
  · subst h
    simp [update_download_task_status]
  · unfold progressTrace download_video_task_run
    cases hplat : (effectivePlatform c == "linkedin" || effectivePlatform c == "instagram" ||
        effectivePlatform c == "youtube") with
    | false =>
      simp only [hplat, Bool.not_false, if_true]
      simp [dlTaskStates, applyDlEv, update_download_task_status, dlFailEv, freshDownloadTask,
        natMonotone]
    | true =>
      cases hres : w.resolveOk with
      | false =>
        simp only [hplat, Bool.not_true, if_false, hres]
        simp [dlTaskStates, applyDlEv, update_download_task_status, dlFailEv, freshDownloadTask,
          natMonotone]
      | true =>
        cases hx : extract_download_url (effectivePlatform c) w with
        | error msg =>
          simp only [hplat, Bool.not_true, if_false, hres, hx]
          simp [dlTaskStates, applyDlEv, update_download_task_status, dlFailEv, freshDownloadTask,
            natMonotone]
        | ok durl =>
          cases hf : w.fetchOk with
          | false =>
            simp only [hplat, Bool.not_true, if_false, hres, hx, hf]
            simp [dlTaskStates, applyDlEv, update_download_task_status, dlFailEv,
              freshDownloadTask, natMonotone]
          | true =>
            simp only [hplat, Bool.not_true, if_false, hres, hx, hf]
            simp [dlTaskStates, applyDlEv, update_download_task_status, dlFailEv,
              freshDownloadTask, natMonotone]

/-- Witness for `C7_progress_properties` on the concrete successful run. -/
theorem C7_progress_properties_witness :
    (update_download_task_status freshDownloadTask "completed" (some 100) none none
        (some 1024) 5).progress = 100 ∧
    natMonotone (progressTrace ytContent dlWorldOk) = true :=
  C7_progress_properties freshDownloadTask "completed" (some 100) none none (some 1024) 5
    ytContent dlWorldOk rfl

/-! ## Subtitle creation (`views.SubtitleGenerateView.post`,
`services.create_subtitle_generation_task`) -/

/-- An error response of the API layer (HTTP 400 with a message). -/
inductive ViewErr where
  | badRequest (msg : String)
deriving Repr, DecidableEq

/-- `services.create_subtitle_generation_task`: for instagram/linkedin
platforms with no downloaded file it raises `ValueError` (surfaced by the view
as a 400); otherwise it creates and persists a pending `Subtitle`.  `sid` is
the generated row id. -/
def create_subtitle_generation_task (content : Content) (language : String) (sid : Nat) :
    Except ViewErr SubtitleRec :=
  if (content.platform == "instagram" || content.platform == "linkedin") &&
      optStrFalsy content.file_path then
    Except.error (ViewErr.badRequest
      ("Video must be downloaded before generating subtitles for " ++ content.platform ++
       ". Please wait for the download to complete."))
  else
    Except.ok (freshSubtitle sid language)

/-- `views.SubtitleGenerateView.post` after the project/content lookups:
rejects non-video content; rejects when an `original` subtitle exists with a
non-failed status; deletes an existing failed one and creates a fresh pending
subtitle.  The boolean result records whether the prior record was deleted. -/
def subtitleGeneratePost (content : Content) (existing : Option SubtitleRec) (sid : Nat) :
    Bool × Except ViewErr SubtitleRec :=
  if !(content.content_type == "video") then
    (false, Except.error (ViewErr.badRequest
      "Content is not a video. Subtitles can only be generated for video content."))
  else
    match existing with
    | some s =>
      if !(s.status == "failed") then
        (false, Except.error (ViewErr.badRequest
          "Subtitle already exists for this content. Use the regenerate endpoint if you want to regenerate."))
      else
        (true, create_subtitle_generation_task content "original" sid)
    | none => (false, create_subtitle_generation_task content "original" sid)

/-- A concrete instagram video content whose file has not been downloaded. -/
def instaContentNoFile : Content :=
  { id := "c-ig", source_url := "https://instagram.com/p/1", content_type := "video",
    platform := "instagram", file_path := none }

/-- A concrete failed `original` subtitle. -/
def failedOriginalSub : SubtitleRec :=
  { id := 7, language := "original", status := "failed", subtitle_text := none,
    error_message := some "boom", started_at := some 1, completed_at := some 2 }

/-- Claim C5 as stated is false in its retry half: when the existing
same-language Subtitle is failed but the content is an instagram/linkedin video
whose file has not been downloaded, the view deletes the old record and then
`create_subtitle_generation_task` raises its platform precondition — the
request fails and no new Subtitle is created, even though the old one is gone. -/
theorem C5_counterexample :
    failedOriginalSub.status = "failed" ∧
    (subtitleGeneratePost instaContentNoFile (some failedOriginalSub) 8).1 = true ∧
    (subtitleGeneratePost instaContentNoFile (some failedOriginalSub) 8).2 =
      Except.error (ViewErr.badRequest
        "Video must be downloaded before generating subtitles for instagram. Please wait for the download to complete.") := by
  refine ⟨by decide, by decide, by rfl⟩

/-- Claim C5, amended: for video content, requesting subtitle generation when a
same-language Subtitle exists and is not failed fails with the duplicate error
and neither deletes nor creates anything; when the existing Subtitle is failed,
the old record is always deleted, and a new pending Subtitle is created exactly
when the platform precondition holds (instagram/linkedin content additionally
requires a downloaded file) — otherwise the request fails with the
precondition error after the old record has already been deleted. -/
theorem C5_subtitle_create_rules (content : Content) (s : SubtitleRec) (sid : Nat)
    (hv : content.content_type = "video") :
    (s.status ≠ "failed" →
      subtitleGeneratePost content (some s) sid =
        (false, Except.error (ViewErr.badRequest
          "Subtitle already exists for this content. Use the regenerate endpoint if you want to regenerate."))) ∧
    (s.status = "failed" →
      ((content.platform == "instagram" || content.platform == "linkedin") &&
          optStrFalsy content.file_path) = false →
      subtitleGeneratePost content (some s) sid =
        (true, Except.ok (freshSubtitle sid "original"))) ∧
    (s.status = "failed" →
      ((content.platform == "instagram" || content.platform == "linkedin") &&
          optStrFalsy content.file_path) = true →
      subtitleGeneratePost content (some s) sid =
        (true, Except.error (ViewErr.badRequest
          ("Video must be downloaded before generating subtitles for " ++ content.platform ++
           ". Please wait for the download to complete.")))) := by
  refine ⟨fun hne => ?_, fun hfa hpre => ?_, fun hfa hpre => ?_⟩
  · have hb : (s.status == "failed") = false := by
      cases hx : (s.status == "failed")
      · rfl
      · exact absurd (by simpa using hx) hne
    simp [subtitleGeneratePost, hv, hb]
  · simp [subtitleGeneratePost, hv, hfa, create_subtitle_generation_task, hpre]
  · simp [subtitleGeneratePost, hv, hfa, create_subtitle_generation_task, hpre]

/-- Witness for `C5_subtitle_create_rules`: a youtube video with a failed
subtitle gets the old record deleted and a fresh pending one created. -/
theorem C5_subtitle_create_rules_witness :
    subtitleGeneratePost ytContent (some failedOriginalSub) 9 =
      (true, Except.ok (freshSubtitle 9 "original")) :=
  (C5_subtitle_create_rules ytContent failedOriginalSub 9 rfl).2.1 rfl (by decide)

/-! ## Synchronous translation (`services.translate_subtitle_synchronous`) -/

/-- The markdown-fence cleanup of `translate_subtitle_synchronous`
(lines 346-353): when the text starts with three backticks, drop the first
line if it starts with the fence and drop the last line if, trimmed, it equals
the fence, then rejoin on newlines. -/
def cleanupFences (t : String) : String :=
  if pyStartsWith t "```" then
    let lines := splitLines t.data
    let lines := if prefAt "```".data (lines.headD []) then lines.tail else lines
    let lines := if !lines.isEmpty && trimEnds Char.isWhitespace (lines.getLastD []) == "```".data
                 then lines.dropLast else lines
    String.mk (joinLines lines)
  else t

/-- Outcome of the Gemini translation call: `apiKeyOk` models the configured
API key check, `apiResp` the response text (`none` when the call raises). -/
structure TransWorld where
  apiKeyOk : Bool
  apiResp : Option String
deriving Repr, DecidableEq

/-- The try-block of `translate_subtitle_synchronous`: either the missing-key
error, a raised external call, or the response text. -/
def translateApiResult (w : TransWorld) : Except String String :=
  if !w.apiKeyOk then Except.error "GEMINI_API_KEY not configured in settings"
  else
    match w.apiResp with
    | none => Except.error "external call failed"
    | some r => Except.ok r

/-- The call phase shared by both branches of `translate_subtitle_synchronous`:
given the already-persisted `generating` record `s1`, on success persists the
cleaned translation with `status='completed'` and `completed_at`; on failure
persists `status='failed'` with the error and re-raises.  Returns the persisted
states in order together with the call result. -/
def translateCall (s1 : SubtitleRec) (w : TransWorld) (now2 : Nat) :
    List SubtitleRec × Except PyErr SubtitleRec :=
  match translateApiResult w with
  | Except.ok r =>
    let s2 := { s1 with subtitle_text := some (cleanupFences (pyStrip r)),
                        status := "completed", completed_at := some now2 }
    ([s1, s2], Except.ok s2)
  | Except.error msg =>
    let s2 := { s1 with status := "failed", error_message := some msg,
                        completed_at := some now2 }
    ([s1, s2], Except.error (PyErr.externalError msg))

/-- `services.translate_subtitle_synchronous`: checks the source is completed
with non-empty text; a non-failed existing translation for the target language
raises the duplicate error; a failed one is reused in place (status reset to
`generating`, error cleared, `started_at` stamped — same row id); with no
existing row a fresh `generating` subtitle with id `freshId` is created; then
the external call runs.  Returns the persisted states and the outcome. -/
def translate_subtitle_synchronous (source : SubtitleRec) (existing : Option SubtitleRec)
    (target : String) (freshId : Nat) (w : TransWorld) (now1 now2 : Nat) :
    List SubtitleRec × Except PyErr SubtitleRec :=
  if !(source.status == "completed") then
    ([], Except.error (PyErr.valueError "Source subtitle must be completed before translation"))
  else if optStrFalsy source.subtitle_text then
    ([], Except.error (PyErr.valueError "Source subtitle has no text to translate"))
  else
    match existing with
    | some e =>
      if !(e.status == "failed") then
        ([], Except.error (PyErr.valueError
          ("Subtitle in " ++ target ++
           " already exists for this content. Delete it first if you want to retranslate.")))
      else
        let s1 := { e with status := "generating", error_message := none,
                           started_at := some now1 }
        translateCall s1 w now2
    | none =>
      let s1 : SubtitleRec :=
        { id := freshId, language := target, status := "generating", subtitle_text := none,
          error_message := none, started_at := some now1, completed_at := none }
      translateCall s1 w now2

/-- Claim C6, confirmed: with a prior failed Subtitle for the target language,
a successful translation reuses the same record — every persisted state keeps
the old row id (no new row is created), the first persisted state resets
status to `generating`, clears `error_message` and stamps `started_at`, and
the final state is `completed` with the cleaned translated text; the record's
status thus passes `failed → generating → completed`. -/
theorem C6_reuse_failed_translation (source e : SubtitleRec) (target r : String)
    (freshId now1 now2 : Nat) (w : TransWorld)
    (hs : source.status = "completed") (ht : optStrFalsy source.subtitle_text = false)
    (he : e.status = "failed") (hk : w.apiKeyOk = true) (hr : w.apiResp = some r) :
    (translate_subtitle_synchronous source (some e) target freshId w now1 now2).1 =
      [{ e with status := "generating", error_message := none, started_at := some now1 },
       { e with status := "completed", error_message := none, started_at := some now1,
                subtitle_text := some (cleanupFences (pyStrip r)), completed_at := some now2 }] ∧
    (translate_subtitle_synchronous source (some e) target freshId w now1 now2).2 =
      Except.ok { e with status := "completed", error_message := none, started_at := some now1,
                         subtitle_text := some (cleanupFences (pyStrip r)),
                         completed_at := some now2 } ∧
    (∀ s ∈ (translate_subtitle_synchronous source (some e) target freshId w now1 now2).1,
      s.id = e.id) ∧
    e.status ::
        (translate_subtitle_synchronous source (some e) target freshId w now1 now2).1.map
          SubtitleRec.status =
      ["failed", "generating", "completed"] := by
  have hrun :
      translate_subtitle_synchronous source (some e) target freshId w now1 now2 =
        ([{ e with status := "generating", error_message := none, started_at := some now1 },
          { e with status := "completed", error_message := none, started_at := some now1,
                   subtitle_text := some (cleanupFences (pyStrip r)),
                   completed_at := some now2 }],
         Except.ok { e with status := "completed", error_message := none,
                            started_at := some now1,
                            subtitle_text := some (cleanupFences (pyStrip r)),
                            completed_at := some now2 }) := by
    simp [translate_subtitle_synchronous, hs, ht, he, translateCall, translateApiResult, hk, hr]
  refine ⟨by rw [hrun], by rw [hrun], ?_, by rw [hrun, he]; rfl⟩
  intro s hsmem
  rw [hrun] at hsmem
  simp only [List.mem_cons, List.mem_singleton, List.not_mem_nil, or_false] at hsmem
  rcases hsmem with h1 | h1 <;> rw [h1]

/-- Witness for `C6_reuse_failed_translation` on concrete records. -/
theorem C6_reuse_failed_translation_witness :
    (translate_subtitle_synchronous
        { id := 1, language := "original", status := "completed",
          subtitle_text := some "1\n00:00:00,000 --> 00:00:01,000\nHi",
          error_message := none, started_at := some 1, completed_at := some 2 }
        (some { id := 4, language := "spanish", status := "failed", subtitle_text := none,
                error_message := some "quota", started_at := some 3, completed_at := some 4 })
        "spanish" 99 { apiKeyOk := true, apiResp := some "1\n00:00:00,000 --> 00:00:01,000\nHola" }
        10 11).2 =
      Except.ok
        { id := 4, language := "spanish", status := "completed",
          subtitle_text := some "1\n00:00:00,000 --> 00:00:01,000\nHola",
          error_message := none, started_at := some 10, completed_at := some 11 } := by
  have h := (C6_reuse_failed_translation
    { id := 1, language := "original", status := "completed",
      subtitle_text := some "1\n00:00:00,000 --> 00:00:01,000\nHi",
      error_message := none, started_at := some 1, completed_at := some 2 }
    { id := 4, language := "spanish", status := "failed", subtitle_text := none,
      error_message := some "quota", started_at := some 3, completed_at := some 4 }
    "spanish" "1\n00:00:00,000 --> 00:00:01,000\nHola" 99 10 11
    { apiKeyOk := true, apiResp := some "1\n00:00:00,000 --> 00:00:01,000\nHola" }
    rfl (by decide) rfl rfl rfl).2.1
  rw [h]
  rfl

/-! ## Asynchronous subtitle generation (`tasks.generate_subtitle_task`) -/

/-- Outcome of the Gemini transcription call: `apiKeyOk` the configured key,
`fileUploadOk` the upload/processing of a local file (instagram/linkedin
path), `apiResp` the model's response text (`none` when the call raises). -/
structure GenWorld where
  apiKeyOk : Bool
  fileUploadOk : Bool
  apiResp : Option String
deriving Repr, DecidableEq

/-- `tasks.generate_subtitle_task` body: persists `generating`, runs the
platform-specific transcription, then persists the outcome via
`update_subtitle_status`.  Line 516 of the source evaluates
`subtitle_text.strip('```srt')` but discards the result (no assignment), so on
success the response text is persisted verbatim; the discarded value is
modelled by the unused binding. -/
def generate_subtitle_task_run (s : SubtitleRec) (c : Content) (w : GenWorld)
    (now1 now2 : Nat) : SubtitleRec :=
  let s1 := update_subtitle_status s "generating" none none now1
  if !w.apiKeyOk then
    update_subtitle_status s1 "failed" none
      (some "GEMINI_API_KEY not configured in settings") now2
  else if c.platform == "instagram" || c.platform == "linkedin" then
    if optStrFalsy c.file_path then
      update_subtitle_status s1 "failed" none
        (some ("Video file not downloaded for " ++ c.platform ++
               ". Cannot generate subtitles without downloaded video file.")) now2
    else if !w.fileUploadOk then
      update_subtitle_status s1 "failed" none (some "File processing failed") now2
    else
      match w.apiResp with
      | none => update_subtitle_status s1 "failed" none (some "external call failed") now2
      | some r =>
        let _discarded := pyStripChars r "```srt"
        update_subtitle_status s1 "completed" (some r) none now2
  else if c.platform == "youtube" then
    match w.apiResp with
    | none => update_subtitle_status s1 "failed" none (some "external call failed") now2
    | some r =>
      let _discarded := pyStripChars r "```srt"
      update_subtitle_status s1 "completed" (some r) none now2
  else
    update_subtitle_status s1 "failed" none (some ("Unsupported platform: " ++ c.platform)) now2

/-- Claim C10, confirmed: on a successful run the asynchronous generation
executor persists `subtitle_text` exactly equal to the raw transcriber
response (the fence-stripping expression discards its result), while the
synchronous translation path does strip leading/trailing fences: on the fenced
sample the discarded `strip('```srt')` value differs from the stored text, and
the translation cleanup reduces the same sample to its inner lines. -/
theorem C10_fences_stored_verbatim (s : SubtitleRec) (c : Content) (w : GenWorld)
    (now1 now2 : Nat) (r : String)
    (hk : w.apiKeyOk = true) (hy : c.platform = "youtube") (hr : w.apiResp = some r) :
    (generate_subtitle_task_run s c w now1 now2).subtitle_text = some r ∧
    pyStripChars "```srt\n1\nhi\n```" "```srt" ≠ "```srt\n1\nhi\n```" ∧
    cleanupFences (pyStrip "```srt\n1\nhi\n```") = "1\nhi" := by
  refine ⟨?_, by decide, by rfl⟩
  simp [generate_subtitle_task_run, hk, hy, hr, update_subtitle_status]

/-- Witness for `C10_fences_stored_verbatim` on a fenced concrete response. -/
theorem C10_fences_stored_verbatim_witness :
    (generate_subtitle_task_run (freshSubtitle 2 "original") ytContent
        { apiKeyOk := true, fileUploadOk := true, apiResp := some "```srt\n1\nhi\n```" }
        1 2).subtitle_text = some "```srt\n1\nhi\n```" :=
  (C10_fences_stored_verbatim (freshSubtitle 2 "original") ytContent
    { apiKeyOk := true, fileUploadOk := true, apiResp := some "```srt\n1\nhi\n```" }
    1 2 "```srt\n1\nhi\n```" rfl rfl rfl).1

/-! ## Subtitle burn executor (`tasks.burn_subtitle_task`) -/

/-- Outcomes of the burn executor's external collaborators: the video file's
existence on disk and the ffmpeg invocation (with its stderr on failure). -/
structure BurnWorld where
  videoFileExists : Bool
  ffmpegOk : Bool
  ffmpegStderr : String
deriving Repr, DecidableEq

/-- One persisted effect of the burn executor: an `update_burn_task_status`
call (`status`, `output_file_path`, `error_message`) or the
`update_content_file_path` call. -/
inductive BurnEv where
  | taskUpdate (status : String) (output_file_path : Option String)
      (error_message : Option String)
  | contentFile (path : String)
deriving Repr, DecidableEq

/-- The deterministic output path `videos/subtitled/{content.id}_{language}.mp4`
of `burn_subtitle_task`. -/
def burnOutputPath (c : Content) (language : String) : String :=
  "videos/subtitled/" ++ c.id ++ "_" ++ language ++ ".mp4"

/-- `tasks.burn_subtitle_task` body as its sequence of persisted effects:
persists `processing`, checks the content file pointer, the subtitle text and
the file on disk, runs ffmpeg, then updates the content's file path to the
deterministic output path and only afterwards marks the task `completed` with
that same path; any exception is recorded via a single `failed` update. -/
def burn_subtitle_task_run (s : SubtitleRec) (c : Content) (w : BurnWorld) : List BurnEv :=
  let ev1 := BurnEv.taskUpdate "processing" none none
  if optStrFalsy c.file_path then
    [ev1, BurnEv.taskUpdate "failed" none (some "Video file not found")]
  else if optStrFalsy s.subtitle_text then
    [ev1, BurnEv.taskUpdate "failed" none (some "Subtitle text is empty")]
  else if !w.videoFileExists then
    [ev1, BurnEv.taskUpdate "failed" none
       (some ("Video file not found at path: media/" ++ (c.file_path.getD "")))]
  else if !w.ffmpegOk then
    [ev1, BurnEv.taskUpdate "failed" none (some ("ffmpeg failed: " ++ w.ffmpegStderr))]
  else
    let out := burnOutputPath c s.language
    [ev1, BurnEv.contentFile out, BurnEv.taskUpdate "completed" (some out) none]

/-- Claim C9, confirmed: a successful burn run persists exactly `processing`,
then the content file-path update to the deterministic path
`videos/subtitled/{content.id}_{subtitle.language}.mp4`, and only then the
`completed` task update carrying that same path as `output_file_path` — so the
owning content's current file is updated to the output path before the task is
marked completed. -/
theorem C9_burn_success (s : SubtitleRec) (c : Content) (w : BurnWorld)
    (hf : optStrFalsy c.file_path = false) (ht : optStrFalsy s.subtitle_text = false)
    (he : w.videoFileExists = true) (hok : w.ffmpegOk = true) :
    burn_subtitle_task_run s c w =
      [BurnEv.taskUpdate "processing" none none,
       BurnEv.contentFile (burnOutputPath c s.language),
       BurnEv.taskUpdate "completed" (some (burnOutputPath c s.language)) none] ∧
    burnOutputPath c s.language = "videos/subtitled/" ++ c.id ++ "_" ++ s.language ++ ".mp4" := by
  constructor
  · simp [burn_subtitle_task_run, hf, ht, he, hok]
  · rfl

/-- Witness for `C9_burn_success` on scenario C's concrete records. -/
theorem C9_burn_success_witness :
    burn_subtitle_task_run
        { id := 5, language := "original", status := "completed",
          subtitle_text := some "1\n00:00:00,000 --> 00:00:01,000\nHi",
          error_message := none, started_at := some 1, completed_at := some 2 }
        { id := "c-yt", source_url := "https://youtube.com/watch?v=x", content_type := "video",
          platform := "youtube", file_path := some "videos/c-yt.mp4" }
        { videoFileExists := true, ffmpegOk := true, ffmpegStderr := "" } =
      [BurnEv.taskUpdate "processing" none none,
       BurnEv.contentFile "videos/subtitled/c-yt_original.mp4",
       BurnEv.taskUpdate "completed" (some "videos/subtitled/c-yt_original.mp4") none] := by
  have h := (C9_burn_success
    { id := 5, language := "original", status := "completed",
      subtitle_text := some "1\n00:00:00,000 --> 00:00:01,000\nHi",
      error_message := none, started_at := some 1, completed_at := some 2 }
    { id := "c-yt", source_url := "https://youtube.com/watch?v=x", content_type := "video",
      platform := "youtube", file_path := some "videos/c-yt.mp4" }
    { videoFileExists := true, ffmpegOk := true, ffmpegStderr := "" }
    (by decide) (by decide) rfl rfl).1
  rw [h]
  rfl

/-! ## Retry policy (`@shared_task(bind=True, max_retries=3, default_retry_delay=60)`
on all four task kinds in `tasks.py`) -/

/-- The `max_retries` argument of the decorator shared by
`download_video_task`, `generate_subtitle_task`, `burn_subtitle_task` and
`burn_watermark_task`. -/
def taskMaxRetries : Nat := 3

/-- The `default_retry_delay` argument (seconds) of the same decorators. -/
def taskRetryDelay : Nat := 60

/-- Modelled from the spec: the queue runtime that interprets the executors'
retry declarations is library code not present under `src/`; per §4.4 a
failing execution is re-run after the fixed `delay`, at most `remaining` more
times, after which no further automatic attempt occurs.  Returns the list of
`(attemptIndex, delayBeforeAttempt)` pairs actually executed; the initial
attempt has no delay. -/
def retryAttempts (remaining delay : Nat) (attemptFails : Nat → Bool) (i : Nat) :
    List (Nat × Nat) :=
  if attemptFails i then
    match remaining with
    | 0 => [(i, if i == 0 then 0 else delay)]
    | n + 1 => (i, if i == 0 then 0 else delay) :: retryAttempts n delay attemptFails (i + 1)
  else
    [(i, if i == 0 then 0 else delay)]

/-- Claim C8, confirmed (retry machinery modelled from the spec; the bounds 3
and 60 are the decorator arguments in the source): with an always-failing
body the schedule runs exactly 4 executions — the initial attempt plus 3
retries, each retry preceded by the uniform 60-second delay — and no 4th
retry; each failing attempt records `status='failed'` with the exception text
via `update_download_task_status`, so after the final attempt the record is
left failed with its error message. -/
theorem C8_retry_policy (msg : String) :
    taskMaxRetries = 3 ∧ taskRetryDelay = 60 ∧
    (retryAttempts taskMaxRetries taskRetryDelay (fun _ => true) 0).length = 4 ∧
    (retryAttempts taskMaxRetries taskRetryDelay (fun _ => true) 0).map Prod.fst =
      [0, 1, 2, 3] ∧
    ((retryAttempts taskMaxRetries taskRetryDelay (fun _ => true) 0).map Prod.snd).tail =
      [60, 60, 60] ∧
    (∀ t now, (update_download_task_status t "failed" none (some msg) none none now).status =
        "failed" ∧
      (update_download_task_status t "failed" none (some msg) none none now).error_message =
        some msg) := by
  refine ⟨rfl, rfl, by decide, by decide, by decide, fun t now => ?_⟩
  constructor
  · rfl
  · rfl

/-- Witness for `C8_retry_policy` at a concrete error message. -/
theorem C8_retry_policy_witness :
    (retryAttempts taskMaxRetries taskRetryDelay (fun _ => true) 0).length = 4 ∧
    (update_download_task_status freshDownloadTask "failed" none (some "boom") none none
        7).error_message = some "boom" :=
  ⟨(C8_retry_policy "boom").2.2.1,
   ((C8_retry_policy "boom").2.2.2.2.2 freshDownloadTask 7).2⟩

end ContentAgent
